import Mathlib

/-!
# VisualDL: the `core` binding module (`visualdl/logic/pybind.cc`)

A shallow embedding of the pybind11 module `core`: the factory lambdas bound on
`LogReader` and `LogWriter`, and the table of classes and methods the module
registers.  The operations of `visualdl/logic/sdk.h` that the lambdas call are
not among the sources; each is modelled from the specification and marked so.
-/

namespace VisualDL

/-! ## Error kinds and tablet handles -/

/-- Modelled from the spec: the error kinds of section 7 (`pybind.cc` names none; the
failures of the `sdk.h` operations reach the host through the lambdas). -/
inductive Error where
  | UnknownTag
  | TagKindMismatch
  | SamplingAlreadyActive
  | NoActiveSamplingPeriod
  | InvalidBucketCount
  | IoFailure
  | CorruptRecord
deriving DecidableEq, Repr

deriving instance DecidableEq for Except

/-- Modelled from the spec: the handle `AddTablet` and `tablet` return (declared in
`sdk.h`, which is not among the sources).  A tag maps to exactly one tablet inside a
mode, so a handle is the pair that names the tablet in the mode index. -/
structure TabletHandle where
  mode : String
  tag : String
deriving DecidableEq, Repr

/-- Modelled from the spec: the ModeIndex of `sdk.h` (not among the sources), the
two-level lookup mode name → tag name → tablet, kept as the tags of each mode in
first-seen order. -/
abbrev ModeIndex := List (String × List String)

/-- Modelled from the spec: `tags(mode)`, the tag names of a mode in first-seen order
(none for a mode never used). -/
def ModeIndex.tags (idx : ModeIndex) (mode : String) : List String :=
  (idx.lookup mode).getD []

/-- Modelled from the spec: whether a tablet exists for the tag in the mode. -/
def ModeIndex.has (idx : ModeIndex) (mode tag : String) : Bool :=
  (ModeIndex.tags idx mode).contains tag

/-- Modelled from the spec: lazy creation, the tag is appended to its mode's tags and
the mode is created on first use. -/
def ModeIndex.insert : ModeIndex → String → String → ModeIndex
  | [], mode, tag => [(mode, [tag])]
  | (m, ts) :: rest, mode, tag =>
    if m = mode then (m, ts ++ [tag]) :: rest
    else (m, ts) :: ModeIndex.insert rest mode tag

/-! ## LogReader and its typed getters (pybind.cc lines 53-101) -/

/-- Modelled from the spec: the state of `vs::LogReader` (declared in `sdk.h`): the
currently selected mode and the index loaded from persisted storage. -/
structure LogReader where
  mode : String
  storage : ModeIndex
deriving DecidableEq, Repr

/-- Modelled from the spec: `LogReader::tablet(tag)` resolves against the currently
selected mode and fails with `UnknownTag` if the tag was never written in that mode. -/
def LogReader.tablet (self : LogReader) (tag : String) : Except Error TabletHandle :=
  if ModeIndex.has self.storage self.mode tag then .ok ⟨self.mode, tag⟩
  else .error Error.UnknownTag

/-- The element-type tokens the macros of the module are instantiated with. -/
inductive CType where
  | int
  | int32_t
  | int64_t
  | float
  | double
deriving DecidableEq, Repr

/-- The preprocessor stringification `#T`. -/
def CType.str : CType → String
  | .int => "int"
  | .int32_t => "int32_t"
  | .int64_t => "int64_t"
  | .float => "float"
  | .double => "double"

/-- Modelled from the spec: `cp::ScalarReader<T>`, a typed view over a tablet. -/
structure ScalarReader (T : CType) where
  tablet : TabletHandle
deriving DecidableEq, Repr

/-- Modelled from the spec: `cp::HistogramReader<T>`, a typed view over a tablet. -/
structure HistogramReader (T : CType) where
  tablet : TabletHandle
deriving DecidableEq, Repr

/-- Modelled from the spec: `cp::ImageReader`, built from the reader's mode and a tablet. -/
structure ImageReader where
  mode : String
  tablet : TabletHandle
deriving DecidableEq, Repr

/-- Modelled from the spec: `cp::TextReader`, a typed view over a tablet. -/
structure TextReader where
  tablet : TabletHandle
deriving DecidableEq, Repr

/-- Modelled from the spec: `cp::AudioReader`, built from the reader's mode and a tablet. -/
structure AudioReader where
  mode : String
  tablet : TabletHandle
deriving DecidableEq, Repr

/-- Modelled from the spec: `cp::EmbeddingReader`, a typed view over a tablet. -/
structure EmbeddingReader where
  tablet : TabletHandle
deriving DecidableEq, Repr

/-- The lambda of `READER_ADD_SCALAR(T)` (lines 62-66). -/
def LogReader.get_scalar (T : CType) (self : LogReader) (tag : String) :
    Except Error (ScalarReader T) := do
  let tablet ← self.tablet tag
  return ScalarReader.mk tablet

/-- The lambda of `READER_ADD_HISTOGRAM(T)` (lines 72-76). -/
def LogReader.get_histogram (T : CType) (self : LogReader) (tag : String) :
    Except Error (HistogramReader T) := do
  let tablet ← self.tablet tag
  return HistogramReader.mk tablet

/-- The lambda bound as `get_image` (lines 83-87). -/
def LogReader.get_image (self : LogReader) (tag : String) : Except Error ImageReader := do
  let tablet ← self.tablet tag
  return ImageReader.mk self.mode tablet

/-- The lambda bound as `get_text` (lines 88-92). -/
def LogReader.get_text (self : LogReader) (tag : String) : Except Error TextReader := do
  let tablet ← self.tablet tag
  return TextReader.mk tablet

/-- The lambda bound as `get_audio` (lines 93-97). -/
def LogReader.get_audio (self : LogReader) (tag : String) : Except Error AudioReader := do
  let tablet ← self.tablet tag
  return AudioReader.mk self.mode tablet

/-- The lambda bound as `get_embedding` (lines 98-101). -/
def LogReader.get_embedding (self : LogReader) (tag : String) :
    Except Error EmbeddingReader := do
  let tablet ← self.tablet tag
  return EmbeddingReader.mk tablet

/-- The typed getters bound on `LogReader`, one per `.def` of a lambda. -/
inductive ReaderGetter where
  | get_scalar (T : CType)
  | get_histogram (T : CType)
  | get_image
  | get_text
  | get_audio
  | get_embedding
deriving DecidableEq, Repr

/-- An object a typed getter returns to the host. -/
inductive Reader where
  | scalar (T : CType) (r : ScalarReader T)
  | histogram (T : CType) (r : HistogramReader T)
  | image (r : ImageReader)
  | text (r : TextReader)
  | audio (r : AudioReader)
  | embedding (r : EmbeddingReader)
deriving DecidableEq

/-- The tablet a returned reader wraps. -/
def Reader.tablet : Reader → TabletHandle
  | .scalar _ r => r.tablet
  | .histogram _ r => r.tablet
  | .image r => r.tablet
  | .text r => r.tablet
  | .audio r => r.tablet
  | .embedding r => r.tablet

/-- Calling a bound getter on a reader with a tag. -/
def LogReader.call (g : ReaderGetter) (self : LogReader) (tag : String) :
    Except Error Reader :=
  match g with
  | .get_scalar T => (LogReader.get_scalar T self tag).map (Reader.scalar T)
  | .get_histogram T => (LogReader.get_histogram T self tag).map (Reader.histogram T)
  | .get_image => (LogReader.get_image self tag).map Reader.image
  | .get_text => (LogReader.get_text self tag).map Reader.text
  | .get_audio => (LogReader.get_audio self tag).map Reader.audio
  | .get_embedding => (LogReader.get_embedding self tag).map Reader.embedding

/-- The getters in the order the module binds them: the macro instantiations
`READER_ADD_SCALAR` and `READER_ADD_HISTOGRAM` for `float`, `double`, `int`, then the
four lambdas. -/
def LogReader.getters : List ReaderGetter :=
  [.get_scalar .float, .get_scalar .double, .get_scalar .int,
   .get_histogram .float, .get_histogram .double, .get_histogram .int,
   .get_image, .get_text, .get_audio, .get_embedding]

/-! ## LogWriter and its typed constructors (pybind.cc lines 104-154) -/

/-- Modelled from the spec: the state of `vs::LogWriter` (declared in `sdk.h`): the
current mode, the owned mode index and the sync cadence. -/
structure LogWriter where
  mode : String
  storage : ModeIndex
  sync_cycle : Int
deriving DecidableEq, Repr

/-- Modelled from the spec: `LogWriter::AddTablet(tag)` as section 6 gives it,
`add_tablet(tag) -> TabletHandle`, create-or-get in the current mode.  The store keeps
tag names only: the type check of section 4.1 against the component kind first used for
a tag is not modelled, so nothing here decides `TagKindMismatch`. -/
def LogWriter.AddTablet (self : LogWriter) (tag : String) : TabletHandle × LogWriter :=
  if ModeIndex.has self.storage self.mode tag then (⟨self.mode, tag⟩, self)
  else (⟨self.mode, tag⟩, { self with storage := ModeIndex.insert self.storage self.mode tag })

/-- Modelled from the spec: `cp::Scalar<T>`, a typed view over a tablet. -/
structure Scalar (T : CType) where
  tablet : TabletHandle
deriving DecidableEq, Repr

/-- Modelled from the spec: `cp::Histogram<T>`, a typed view over a tablet together
with its bucket count. -/
structure Histogram (T : CType) where
  tablet : TabletHandle
  num_buckets : Int
deriving DecidableEq, Repr

/-- Modelled from the spec: `cp::Image`, a typed view over a tablet with the reservoir
capacity `num_samples` and the period length `step_cycle`. -/
structure Image where
  tablet : TabletHandle
  num_samples : Int
  step_cycle : Int
deriving DecidableEq, Repr

/-- Modelled from the spec: `cp::Text`, a typed view over a tablet. -/
structure Text where
  tablet : TabletHandle
deriving DecidableEq, Repr

/-- Modelled from the spec: `cp::Audio`, a typed view over a tablet with the reservoir
capacity `num_samples` and the period length `step_cycle`. -/
structure Audio where
  tablet : TabletHandle
  num_samples : Int
  step_cycle : Int
deriving DecidableEq, Repr

/-- Modelled from the spec: `cp::Embedding`, a typed view over a tablet. -/
structure Embedding where
  tablet : TabletHandle
deriving DecidableEq, Repr

/-- Modelled from the spec: the constructor `cp::Histogram<T>(tablet, num_buckets)` of
`sdk.h`; a histogram requested with `num_buckets ≤ 0` is the explicit failure
`InvalidBucketCount` (section 7), otherwise the count is kept as given. -/
def Histogram.construct (T : CType) (tablet : TabletHandle) (num_buckets : Int) :
    Except Error (Histogram T) :=
  if num_buckets ≤ 0 then .error Error.InvalidBucketCount
  else .ok (Histogram.mk tablet num_buckets)

/-- The lambda of `WRITER_ADD_SCALAR(T)` (lines 112-116). -/
def LogWriter.new_scalar (T : CType) (self : LogWriter) (tag : String) :
    Scalar T × LogWriter :=
  let r := self.AddTablet tag
  (Scalar.mk r.1, r.2)

/-- The lambda of `WRITER_ADD_HISTOGRAM(T)` (lines 117-122): the tablet is added first,
then the constructor runs, so the writer state is the one after `AddTablet` also when
the constructor fails. -/
def LogWriter.new_histogram (T : CType) (self : LogWriter) (tag : String)
    (num_buckets : Int) : Except Error (Histogram T) × LogWriter :=
  let r := self.AddTablet tag
  (Histogram.construct T r.1 num_buckets, r.2)

/-- The lambda bound as `new_image` (lines 130-137). -/
def LogWriter.new_image (self : LogWriter) (tag : String) (num_samples step_cycle : Int) :
    Image × LogWriter :=
  let r := self.AddTablet tag
  (Image.mk r.1 num_samples step_cycle, r.2)

/-- The lambda bound as `new_text` (lines 138-142). -/
def LogWriter.new_text (self : LogWriter) (tag : String) : Text × LogWriter :=
  let r := self.AddTablet tag
  (Text.mk r.1, r.2)

/-- The lambda bound as `new_audio` (lines 143-150). -/
def LogWriter.new_audio (self : LogWriter) (tag : String) (num_samples step_cycle : Int) :
    Audio × LogWriter :=
  let r := self.AddTablet tag
  (Audio.mk r.1 num_samples step_cycle, r.2)

/-- The lambda bound as `new_embedding` (lines 151-154). -/
def LogWriter.new_embedding (self : LogWriter) (tag : String) : Embedding × LogWriter :=
  let r := self.AddTablet tag
  (Embedding.mk r.1, r.2)

/-- The typed constructors bound on `LogWriter`, one per `.def` of a lambda. -/
inductive WriterCtor where
  | new_scalar (T : CType)
  | new_histogram (T : CType)
  | new_image
  | new_text
  | new_audio
  | new_embedding
deriving DecidableEq, Repr

/-- The component kinds. -/
inductive ComponentKind where
  | Scalar
  | Histogram
  | Image
  | Text
  | Audio
  | Embedding
deriving DecidableEq, Repr

/-- The component kind a constructor builds. -/
def WriterCtor.kind : WriterCtor → ComponentKind
  | .new_scalar _ => .Scalar
  | .new_histogram _ => .Histogram
  | .new_image => .Image
  | .new_text => .Text
  | .new_audio => .Audio
  | .new_embedding => .Embedding

/-- An object a typed constructor returns to the host. -/
inductive Writer where
  | scalar (T : CType) (w : Scalar T)
  | histogram (T : CType) (w : Histogram T)
  | image (w : Image)
  | text (w : Text)
  | audio (w : Audio)
  | embedding (w : Embedding)
deriving DecidableEq

/-- The tablet a returned writer wraps. -/
def Writer.tablet : Writer → TabletHandle
  | .scalar _ w => w.tablet
  | .histogram _ w => w.tablet
  | .image w => w.tablet
  | .text w => w.tablet
  | .audio w => w.tablet
  | .embedding w => w.tablet

/-- The component kind of a returned writer. -/
def Writer.kind : Writer → ComponentKind
  | .scalar _ _ => .Scalar
  | .histogram _ _ => .Histogram
  | .image _ => .Image
  | .text _ => .Text
  | .audio _ => .Audio
  | .embedding _ => .Embedding

/-- Calling a bound constructor on a writer with a tag and the integer arguments of the
call: `n` is `num_buckets` for a histogram and `num_samples` for image and audio,
`step_cycle` is read by image and audio only.  The result is what the host receives and
the writer state after the call. -/
def LogWriter.call (c : WriterCtor) (self : LogWriter) (tag : String) (n step_cycle : Int) :
    Except Error Writer × LogWriter :=
  match c with
  | .new_scalar T =>
    let r := LogWriter.new_scalar T self tag
    (.ok (Writer.scalar T r.1), r.2)
  | .new_histogram T =>
    let r := LogWriter.new_histogram T self tag n
    (r.1.map (Writer.histogram T), r.2)
  | .new_image =>
    let r := LogWriter.new_image self tag n step_cycle
    (.ok (Writer.image r.1), r.2)
  | .new_text =>
    let r := LogWriter.new_text self tag
    (.ok (Writer.text r.1), r.2)
  | .new_audio =>
    let r := LogWriter.new_audio self tag n step_cycle
    (.ok (Writer.audio r.1), r.2)
  | .new_embedding =>
    let r := LogWriter.new_embedding self tag
    (.ok (Writer.embedding r.1), r.2)

/-- The constructors in the order the module binds them: `WRITER_ADD_SCALAR` and
`WRITER_ADD_HISTOGRAM` for `float`, `double`, `int`, then the four lambdas. -/
def LogWriter.ctors : List WriterCtor :=
  [.new_scalar .float, .new_scalar .double, .new_scalar .int,
   .new_histogram .float, .new_histogram .double, .new_histogram .int,
   .new_image, .new_text, .new_audio, .new_embedding]

/-! ## The classes and methods the module registers (pybind.cc lines 53-400) -/

/-- The numeric kinds behind the element-type tokens. -/
inductive NumericKind where
  | int32
  | int64
  | float32
  | float64
deriving DecidableEq, Repr

/-- The numeric kind of a token; `int` is the 32-bit signed integer, as `int32_t` is. -/
def CType.kind : CType → NumericKind
  | .int => .int32
  | .int32_t => .int32
  | .int64_t => .int64
  | .float => .float32
  | .double => .float64

/-- One token per numeric kind: `int` is identified with `int32_t`. -/
def CType.canon : CType → CType
  | .int => .int32_t
  | T => T

/-- The C++ types the module registers a class for or returns from a factory. -/
inductive CppType where
  | LogReader
  | LogWriter
  | ScalarReader (T : CType)
  | Scalar (T : CType)
  | Image
  | ImageRecord
  | ImageReader
  | Text
  | TextReader
  | Embedding
  | EmbeddingReader
  | Audio
  | AudioRecord
  | AudioReader
  | Histogram (T : CType)
  | HistogramInstance (T : CType)
  | HistogramRecord (T : CType)
  | HistogramReader (T : CType)
deriving DecidableEq, Repr

/-- A C++ type with its element token made canonical. -/
def CppType.canon : CppType → CppType
  | .ScalarReader T => .ScalarReader T.canon
  | .Scalar T => .Scalar T.canon
  | .Histogram T => .Histogram T.canon
  | .HistogramInstance T => .HistogramInstance T.canon
  | .HistogramRecord T => .HistogramRecord T.canon
  | .HistogramReader T => .HistogramReader T.canon
  | t => t

/-- The component kind of a typed writer class, if the type is one. -/
def CppType.writerKind : CppType → Option ComponentKind
  | .Scalar _ => some .Scalar
  | .Histogram _ => some .Histogram
  | .Image => some .Image
  | .Text => some .Text
  | .Audio => some .Audio
  | .Embedding => some .Embedding
  | _ => none

/-- The component kind of a typed reader class, if the type is one. -/
def CppType.readerKind : CppType → Option ComponentKind
  | .ScalarReader _ => some .Scalar
  | .HistogramReader _ => some .Histogram
  | .ImageReader => some .Image
  | .TextReader => some .Text
  | .AudioReader => some .Audio
  | .EmbeddingReader => some .Embedding
  | _ => none

/-- A `py::class_<cpp>(m, name)` with its `.def`s: the host-side method name and the
C++ member bound to it (`lambda` for a lambda). -/
structure PyClass where
  cpp : CppType
  name : String
  defs : List (String × String)
deriving DecidableEq, Repr

/-- The host-side method names of a class. -/
def PyClass.methods (c : PyClass) : List String :=
  c.defs.map Prod.fst

/-- The name `READER_ADD_SCALAR`, `READER_ADD_HISTOGRAM` or a plain `.def` binds. -/
def ReaderGetter.pyname : ReaderGetter → String
  | .get_scalar T => "get_scalar_" ++ T.str
  | .get_histogram T => "get_histogram_" ++ T.str
  | .get_image => "get_image"
  | .get_text => "get_text"
  | .get_audio => "get_audio"
  | .get_embedding => "get_embedding"

/-- The C++ type a getter's lambda returns. -/
def ReaderGetter.returns : ReaderGetter → CppType
  | .get_scalar T => .ScalarReader T
  | .get_histogram T => .HistogramReader T
  | .get_image => .ImageReader
  | .get_text => .TextReader
  | .get_audio => .AudioReader
  | .get_embedding => .EmbeddingReader

/-- The name `WRITER_ADD_SCALAR`, `WRITER_ADD_HISTOGRAM` or a plain `.def` binds. -/
def WriterCtor.pyname : WriterCtor → String
  | .new_scalar T => "new_scalar_" ++ T.str
  | .new_histogram T => "new_histogram_" ++ T.str
  | .new_image => "new_image"
  | .new_text => "new_text"
  | .new_audio => "new_audio"
  | .new_embedding => "new_embedding"

/-- The C++ type a constructor's lambda returns. -/
def WriterCtor.returns : WriterCtor → CppType
  | .new_scalar T => .Scalar T
  | .new_histogram T => .Histogram T
  | .new_image => .Image
  | .new_text => .Text
  | .new_audio => .Audio
  | .new_embedding => .Embedding

/-- The class `LogReader` (lines 53-101). -/
def LogReader.pyclass : PyClass :=
  { cpp := .LogReader, name := "LogReader",
    defs := [("__init__", "lambda"), ("as_mode", "AsMode"), ("set_mode", "SetMode"),
             ("modes", "lambda"), ("tags", "tags")]
            ++ LogReader.getters.map (fun g => (g.pyname, "lambda")) }

/-- The class `LogWriter` (lines 104-154). -/
def LogWriter.pyclass : PyClass :=
  { cpp := .LogWriter, name := "LogWriter",
    defs := [("__init__", "lambda"), ("set_mode", "SetMode"), ("as_mode", "AsMode"),
             ("save", "Save")]
            ++ LogWriter.ctors.map (fun c => (c.pyname, "lambda")) }

/-- The macro `ADD_FULL_TYPE_IMPL(CODE)` (lines 25-29). -/
def ADD_FULL_TYPE_IMPL (CODE : CType → PyClass) : List PyClass :=
  [CODE .int32_t, CODE .int64_t, CODE .float, CODE .double]

/-- The macro `ADD_SCALAR_READER(T)` (lines 157-162). -/
def ADD_SCALAR_READER (T : CType) : PyClass :=
  { cpp := .ScalarReader T, name := "ScalarReader__" ++ T.str,
    defs := [("records", "records"), ("timestamps", "timestamps"), ("ids", "ids"),
             ("caption", "caption")] }

/-- The macro `ADD_SCALAR_WRITER(T)` (lines 169-177). -/
def ADD_SCALAR_WRITER (T : CType) : PyClass :=
  { cpp := .Scalar T, name := "ScalarWriter__" ++ T.str,
    defs := [("set_caption", "SetCaption"), ("add_record", "AddRecord")] }

/-- The class `ImageWriter` (lines 184-224). -/
def ImageWriter : PyClass :=
  { cpp := .Image, name := "ImageWriter",
    defs := [("set_caption", "SetCaption"), ("start_sampling", "StartSampling"),
             ("is_sample_taken", "IndexOfSampleTaken"), ("finish_sampling", "FinishSampling"),
             ("set_sample", "SetSample"), ("add_sample", "AddSample")] }

/-- The class `ImageRecord` (lines 226-232). -/
def ImageRecord : PyClass :=
  { cpp := .ImageRecord, name := "ImageRecord",
    defs := [("data", "lambda"), ("shape", "lambda"), ("step_id", "lambda")] }

/-- The class `ImageReader` (lines 234-239). -/
def ImageReader.pyclass : PyClass :=
  { cpp := .ImageReader, name := "ImageReader",
    defs := [("caption", "caption"), ("num_records", "num_records"),
             ("num_samples", "num_samples"), ("record", "record"),
             ("timestamp", "timestamp")] }

/-- The class `TextWriter` (lines 241-252). -/
def TextWriter : PyClass :=
  { cpp := .Text, name := "TextWriter",
    defs := [("set_caption", "SetCaption"), ("add_record", "AddRecord")] }

/-- The class `TextReader` (lines 254-260). -/
def TextReader.pyclass : PyClass :=
  { cpp := .TextReader, name := "TextReader",
    defs := [("records", "records"), ("ids", "ids"), ("timestamps", "timestamps"),
             ("caption", "caption"), ("total_records", "total_records"), ("size", "size")] }

/-- The class `EmbeddingWriter` (lines 262-286). -/
def EmbeddingWriter : PyClass :=
  { cpp := .Embedding, name := "EmbeddingWriter",
    defs := [("set_caption", "SetCaption"),
             ("add_embeddings_with_word_list", "AddEmbeddingsWithWordList"),
             ("add_embeddings_with_word_dict", "AddEmbeddingsWithWordDict")] }

/-- The class `EmbeddingReader` (lines 288-295). -/
def EmbeddingReader.pyclass : PyClass :=
  { cpp := .EmbeddingReader, name := "EmbeddingReader",
    defs := [("get_all_labels", "get_all_labels"),
             ("get_all_embeddings", "get_all_embeddings"), ("ids", "ids"),
             ("timestamps", "timestamps"), ("caption", "caption"),
             ("total_records", "total_records"), ("size", "size")] }

/-- The class `AudioWriter` (lines 297-340). -/
def AudioWriter : PyClass :=
  { cpp := .Audio, name := "AudioWriter",
    defs := [("set_caption", "SetCaption"), ("start_sampling", "StartSampling"),
             ("is_sample_taken", "IndexOfSampleTaken"), ("finish_sampling", "FinishSampling"),
             ("set_sample", "SetSample"), ("add_sample", "AddSample")] }

/-- The class `AudioRecord` (lines 342-348). -/
def AudioRecord : PyClass :=
  { cpp := .AudioRecord, name := "AudioRecord",
    defs := [("data", "lambda"), ("shape", "lambda"), ("step_id", "lambda")] }

/-- The class `AudioReader` (lines 350-355). -/
def AudioReader.pyclass : PyClass :=
  { cpp := .AudioReader, name := "AudioReader",
    defs := [("caption", "caption"), ("num_records", "num_records"),
             ("num_samples", "num_samples"), ("record", "record"),
             ("timestamp", "timestamp")] }

/-- The macro `ADD_HISTOGRAM_WRITER(T)` (lines 357-364). -/
def ADD_HISTOGRAM_WRITER (T : CType) : PyClass :=
  { cpp := .Histogram T, name := "HistogramWriter__" ++ T.str,
    defs := [("add_record", "AddRecord")] }

/-- The macro `ADD_HISTOGRAM_RECORD_INSTANCE(T)` (lines 368-380). -/
def ADD_HISTOGRAM_RECORD_INSTANCE (T : CType) : PyClass :=
  { cpp := .HistogramInstance T, name := "HistogramInstance__" ++ T.str,
    defs := [("left", "lambda"), ("right", "lambda"), ("frequency", "lambda")] }

/-- The macro `ADD_HISTOGRAM_RECORD(T)` (lines 385-391). -/
def ADD_HISTOGRAM_RECORD (T : CType) : PyClass :=
  { cpp := .HistogramRecord T, name := "HistogramRecord__" ++ T.str,
    defs := [("step", "lambda"), ("timestamp", "lambda"), ("instance", "instance"),
             ("num_instances", "num_instances")] }

/-- The macro `ADD_HISTOGRAM_READER(T)` (lines 395-398). -/
def ADD_HISTOGRAM_READER (T : CType) : PyClass :=
  { cpp := .HistogramReader T, name := "HistogramReader__" ++ T.str,
    defs := [("num_records", "num_records"), ("record", "record")] }

/-- Every class of `PYBIND11_MODULE(core, m)`, in source order. -/
def module_classes : List PyClass :=
  [LogReader.pyclass, LogWriter.pyclass,
   ADD_SCALAR_READER .int, ADD_SCALAR_READER .float, ADD_SCALAR_READER .double,
   ADD_SCALAR_READER .int64_t,
   ADD_SCALAR_WRITER .int, ADD_SCALAR_WRITER .float, ADD_SCALAR_WRITER .double,
   ImageWriter, ImageRecord, ImageReader.pyclass, TextWriter, TextReader.pyclass,
   EmbeddingWriter, EmbeddingReader.pyclass, AudioWriter, AudioRecord, AudioReader.pyclass]
  ++ ADD_FULL_TYPE_IMPL ADD_HISTOGRAM_WRITER
  ++ ADD_FULL_TYPE_IMPL ADD_HISTOGRAM_RECORD_INSTANCE
  ++ ADD_FULL_TYPE_IMPL ADD_HISTOGRAM_RECORD
  ++ ADD_FULL_TYPE_IMPL ADD_HISTOGRAM_READER

/-- Whether the module registers a class for the C++ type, `int` and `int32_t` being
one type. -/
def registered (t : CppType) : Bool :=
  module_classes.any (fun c => c.cpp.canon == t.canon)

/-- The C++ type of an object a constructor returned. -/
def Writer.cpp : Writer → CppType
  | .scalar T _ => .Scalar T
  | .histogram T _ => .Histogram T
  | .image _ => .Image
  | .text _ => .Text
  | .audio _ => .Audio
  | .embedding _ => .Embedding

/-- The C++ type of an object a getter returned. -/
def Reader.cpp : Reader → CppType
  | .scalar T _ => .ScalarReader T
  | .histogram T _ => .HistogramReader T
  | .image _ => .ImageReader
  | .text _ => .TextReader
  | .audio _ => .AudioReader
  | .embedding _ => .EmbeddingReader

/-! ## Reservoir sampling behind `is_sample_taken` (pybind.cc lines 190-224, 303-340) -/

/-- Modelled from the spec: the ReservoirSampler state of an Image or Audio tablet
(`cp::Image` and `cp::Audio` are defined in `sdk.h`, not among the sources): the
capacity `k`, the number `n` of candidates seen, the slots `[0..k)` each holding an
optional pending sample, and whether a period is open. -/
structure ReservoirSampler (α : Type) where
  capacity : Nat
  seen_count : Nat
  slots : List (Option α)
  active : Bool
deriving DecidableEq, Repr

/-- Modelled from the spec: `start_sampling(capacity k)` resets the state for a new
period and fails with `SamplingAlreadyActive` if a period is already open. -/
def ReservoirSampler.StartSampling {α : Type} (s : ReservoirSampler α) (k : Nat) :
    Except Error (ReservoirSampler α) :=
  if s.active then .error Error.SamplingAlreadyActive
  else .ok { capacity := k, seen_count := 0, slots := List.replicate k none, active := true }

/-- Modelled from the spec: `index_of_sample_taken` increments the candidate counter
`n`; if `n ≤ k` it returns slot `n-1`; otherwise it draws a uniform random integer `r`
in `[0, n)` and returns slot `r` if `r < k`, else `none`.  The random source is the
argument `rnd`, reduced into `[0, n)`; the payload of a returned slot is replaced by the
`set_sample` call that follows. -/
def ReservoirSampler.IndexOfSampleTaken {α : Type} (s : ReservoirSampler α) (rnd : Nat) :
    Option Nat × ReservoirSampler α :=
  let n := s.seen_count + 1
  let s1 := { s with seen_count := n }
  if n ≤ s.capacity then (some (n - 1), s1)
  else
    let r := rnd % n
    if r < s.capacity then (some r, s1) else (none, s1)

/-- The results of successive `IndexOfSampleTaken` calls, one per value of the random
source. -/
def ReservoirSampler.calls {α : Type} (s : ReservoirSampler α) : List Nat → List (Option Nat)
  | [] => []
  | rnd :: rest =>
    (s.IndexOfSampleTaken rnd).1 :: ReservoirSampler.calls (s.IndexOfSampleTaken rnd).2 rest

/-! ## Histogram binning behind `add_record` (pybind.cc lines 357-393) -/

/-- Modelled from the spec: the conversion of a widened value back to an integer kind,
which the spec leaves open; truncation toward zero, as a C++ conversion does. -/
def truncate (q : ℚ) : ℤ :=
  if 0 ≤ q then ⌊q⌋ else ⌈q⌉

/-- Modelled from the spec: an edge computed in the widened type is reported back in
`T`: truncated for the integer kinds, kept for the floating kinds (whose rounding is
not modelled; values are exact rationals). -/
def CType.report : CType → ℚ → ℚ
  | .int, q => (truncate q : ℚ)
  | .int32_t, q => (truncate q : ℚ)
  | .int64_t, q => (truncate q : ℚ)
  | .float, q => q
  | .double, q => q

/-- Modelled from the spec: `vs::HistogramRecord<T>::Instance`, one bucket
`{left, right, frequency}`. -/
structure Instance where
  left : ℚ
  right : ℚ
  frequency : Int
deriving DecidableEq, Repr

/-- Modelled from the spec: `vs::HistogramRecord<T>`, the instances plus the originating
step and timestamp. -/
structure HistogramRecord (T : CType) where
  step : Int
  timestamp : Int
  instances : List Instance
deriving DecidableEq, Repr

/-- Modelled from the spec: the bucket index of `x`,
`clamp(floor((x - min_v) / w), 0, num_buckets-1)`. -/
def HistogramBinner.index (min_v w : ℚ) (num_buckets : Int) (x : ℚ) : Int :=
  max 0 (min ⌊(x - min_v) / w⌋ (num_buckets - 1))

/-- Modelled from the spec: `HistogramBinner.bin(values, num_buckets)` (section 4.3):
`min_v`, `max_v` over the values; a single bucket `[min_v, min_v]` holding all values
when they coincide; otherwise `num_buckets` contiguous ascending buckets of width
`w = (max_v - min_v) / num_buckets`, each counting the values whose index it is.  The
spec names no bucket for an empty sample; none is produced. -/
def HistogramBinner.bin (T : CType) (values : List ℚ) (num_buckets : Int) : List Instance :=
  match values with
  | [] => []
  | v :: vs =>
    let min_v := vs.foldl min v
    let max_v := vs.foldl max v
    if min_v = max_v then
      [{ left := T.report min_v, right := T.report min_v, frequency := (values.length : Int) }]
    else
      let w := (max_v - min_v) / (num_buckets : ℚ)
      (List.range num_buckets.toNat).map fun (i : Nat) =>
        { left := T.report (min_v + (i : ℚ) * w),
          right := T.report (min_v + ((i : ℚ) + 1) * w),
          frequency :=
            ((values.countP fun x => HistogramBinner.index min_v w num_buckets x = (i : Int)) :
              Nat) }

/-- Modelled from the spec: `cp::Histogram<T>::AddRecord(step, data)` bins the raw
values into the writer's bucket count and yields the record appended to its tablet,
stamped with the step and the time of the call. -/
def Histogram.AddRecord {T : CType} (self : Histogram T) (step timestamp : Int)
    (data : List ℚ) : HistogramRecord T :=
  { step := step, timestamp := timestamp,
    instances := HistogramBinner.bin T data self.num_buckets }

/-! ## Facts about the tablet store used by the factories -/

/-- C1: every typed getter bound on `LogReader` first resolves the tablet with the
reader's own `tablet(tag)`; when that lookup fails the getter fails with the same error
and builds no reader, and when it succeeds the reader returned wraps exactly the tablet
returned by the lookup. -/
theorem C1_getter_resolves_tablet_first (g : ReaderGetter) (self : LogReader) (tag : String) :
    match self.tablet tag with
    | .error e => LogReader.call g self tag = .error e
    | .ok t => ∃ r, LogReader.call g self tag = .ok r ∧ r.tablet = t := by
  cases h : self.tablet tag with
  | error e =>
    cases g <;>
      simp [LogReader.call, LogReader.get_scalar, LogReader.get_histogram, LogReader.get_image,
        LogReader.get_text, LogReader.get_audio, LogReader.get_embedding, h, Except.map, bind,
        Except.bind]
  | ok t =>
    cases g <;>
      simp [LogReader.call, LogReader.get_scalar, LogReader.get_histogram, LogReader.get_image,
        LogReader.get_text, LogReader.get_audio, LogReader.get_embedding, h, Except.map, bind,
        Except.bind, pure, Except.pure, Reader.tablet]

/-- C1 at concrete readers: `get_image` on a tag never written under the selected mode
fails with the lookup's `UnknownTag`, and `get_scalar_float` on a written tag wraps the
tablet of that tag. -/
theorem C1_getter_resolves_tablet_first_witness :
    (match LogReader.tablet ⟨"test", [("train", ["loss"])]⟩ "loss" with
      | .error e =>
        LogReader.call .get_image ⟨"test", [("train", ["loss"])]⟩ "loss" = .error e
      | .ok t =>
        ∃ r, LogReader.call .get_image ⟨"test", [("train", ["loss"])]⟩ "loss" = .ok r ∧
          r.tablet = t) ∧
    LogReader.tablet ⟨"test", [("train", ["loss"])]⟩ "loss" = .error Error.UnknownTag ∧
    LogReader.call .get_image ⟨"test", [("train", ["loss"])]⟩ "loss"
      = .error Error.UnknownTag ∧
    LogReader.call (.get_scalar .float) ⟨"train", [("train", ["loss"])]⟩ "loss"
      = .ok (.scalar .float ⟨⟨"train", "loss"⟩⟩) :=
  ⟨C1_getter_resolves_tablet_first .get_image ⟨"test", [("train", ["loss"])]⟩ "loss",
    by decide, by decide, by decide⟩

/-! ## C2: the typed constructors of LogWriter -/

/-- C7 fails at the 64-bit signed integer: no constructor bound on `LogWriter` builds a
scalar or histogram writer of that kind and no getter bound on `LogReader` builds a
scalar or histogram reader of it; the names `new_scalar_int64_t`, `new_histogram_int64_t`,
`get_scalar_int64_t` and `get_histogram_int64_t` are not bound. -/
theorem C7_counterexample :
    (¬ ∃ T : CType, T.kind = .int64 ∧ WriterCtor.new_scalar T ∈ LogWriter.ctors) ∧
    (¬ ∃ T : CType, T.kind = .int64 ∧ WriterCtor.new_histogram T ∈ LogWriter.ctors) ∧
    (¬ ∃ T : CType, T.kind = .int64 ∧ ReaderGetter.get_scalar T ∈ LogReader.getters) ∧
    (¬ ∃ T : CType, T.kind = .int64 ∧ ReaderGetter.get_histogram T ∈ LogReader.getters) ∧
    "new_scalar_int64_t" ∉ LogWriter.pyclass.methods ∧
    "new_histogram_int64_t" ∉ LogWriter.pyclass.methods ∧
    "get_scalar_int64_t" ∉ LogReader.pyclass.methods ∧
    "get_histogram_int64_t" ∉ LogReader.pyclass.methods := by
  refine ⟨?_, ?_, ?_, ?_, by decide, by decide, by decide, by decide⟩ <;>
    · rintro ⟨T, hk, hm⟩
      cases T <;> first
        | exact absurd hk (by decide)
        | exact absurd hm (by decide)

/-- C7 as amended: for each of the three kinds 32-bit signed integer, 32-bit float and
64-bit float the boundary binds a Scalar and a Histogram writer constructor on
`LogWriter` and a Scalar and a Histogram reader getter on `LogReader`, each returning a
class the module registers; for the 64-bit signed integer it binds none of the four. -/
theorem C7_three_kinds_offered (K : NumericKind) :
    (K ≠ .int64 →
      (∃ T : CType, T.kind = K ∧ WriterCtor.new_scalar T ∈ LogWriter.ctors ∧
        (WriterCtor.new_scalar T).pyname ∈ LogWriter.pyclass.methods ∧
        registered (.Scalar T) = true) ∧
      (∃ T : CType, T.kind = K ∧ WriterCtor.new_histogram T ∈ LogWriter.ctors ∧
        (WriterCtor.new_histogram T).pyname ∈ LogWriter.pyclass.methods ∧
        registered (.Histogram T) = true) ∧
      (∃ T : CType, T.kind = K ∧ ReaderGetter.get_scalar T ∈ LogReader.getters ∧
        (ReaderGetter.get_scalar T).pyname ∈ LogReader.pyclass.methods ∧
        registered (.ScalarReader T) = true) ∧
      (∃ T : CType, T.kind = K ∧ ReaderGetter.get_histogram T ∈ LogReader.getters ∧
        (ReaderGetter.get_histogram T).pyname ∈ LogReader.pyclass.methods ∧
        registered (.HistogramReader T) = true)) ∧
    (K = .int64 → ∀ T : CType, T.kind = K →
      WriterCtor.new_scalar T ∉ LogWriter.ctors ∧
      WriterCtor.new_histogram T ∉ LogWriter.ctors ∧
      ReaderGetter.get_scalar T ∉ LogReader.getters ∧
      ReaderGetter.get_histogram T ∉ LogReader.getters) := by
  constructor
  · intro hK
    cases K with
    | int32 =>
      exact ⟨⟨.int, by decide⟩, ⟨.int, by decide⟩, ⟨.int, by decide⟩, ⟨.int, by decide⟩⟩
    | int64 => exact absurd rfl hK
    | float32 =>
      exact ⟨⟨.float, by decide⟩, ⟨.float, by decide⟩, ⟨.float, by decide⟩,
        ⟨.float, by decide⟩⟩
    | float64 =>
      exact ⟨⟨.double, by decide⟩, ⟨.double, by decide⟩, ⟨.double, by decide⟩,
        ⟨.double, by decide⟩⟩
  · intro hK T hT
    subst hK
    cases T <;> first
      | exact absurd hT (by decide)
      | decide

/-! ## C8: the getters mirror the constructors -/

/-- C8: for every suffix `X`, `LogWriter` binds `new_X` if and only if `LogReader` binds
`get_X`. -/
theorem C8_getters_mirror_ctors (X : String) :
    ("new_" ++ X) ∈ LogWriter.pyclass.methods ↔ ("get_" ++ X) ∈ LogReader.pyclass.methods := by
  simp [LogWriter.pyclass, LogReader.pyclass, PyClass.methods, LogWriter.ctors,
    LogReader.getters, WriterCtor.pyname, ReaderGetter.pyname, CType.str, String.ext_iff,
    String.data_append]

/-! ## C9: captions on the component classes -/

/-- C9 fails at the histogram classes: `HistogramWriter__float` is a registered typed
writer class without `set_caption`, and `HistogramReader__float` a registered typed
reader class without `caption`. -/
theorem C9_counterexample :
    ADD_HISTOGRAM_WRITER .float ∈ module_classes ∧
    (ADD_HISTOGRAM_WRITER .float).cpp.writerKind = some .Histogram ∧
    (ADD_HISTOGRAM_WRITER .float).methods = ["add_record"] ∧
    "set_caption" ∉ (ADD_HISTOGRAM_WRITER .float).methods ∧
    ADD_HISTOGRAM_READER .float ∈ module_classes ∧
    (ADD_HISTOGRAM_READER .float).cpp.readerKind = some .Histogram ∧
    (ADD_HISTOGRAM_READER .float).methods = ["num_records", "record"] ∧
    "caption" ∉ (ADD_HISTOGRAM_READER .float).methods := by
  decide

/-- C9 as amended: every typed writer class the module registers other than the
Histogram writers exposes `set_caption`, and every typed reader class other than the
Histogram readers exposes `caption`; a Histogram writer class exposes `add_record` only
and a Histogram reader class `num_records` and `record` only. -/
theorem C9_caption_except_histogram (c : PyClass) (hc : c ∈ module_classes) :
    (∀ k, c.cpp.writerKind = some k →
      (k ≠ .Histogram → "set_caption" ∈ c.methods) ∧
      (k = .Histogram → c.methods = ["add_record"])) ∧
    (∀ k, c.cpp.readerKind = some k →
      (k ≠ .Histogram → "caption" ∈ c.methods) ∧
      (k = .Histogram → c.methods = ["num_records", "record"])) := by
  revert c
  decide

/-- C9 as amended, at the class `ImageWriter`. -/
theorem C9_caption_except_histogram_witness :
    ImageWriter ∈ module_classes ∧ "set_caption" ∈ ImageWriter.methods :=
  ⟨by decide,
    ((C9_caption_except_histogram ImageWriter (by decide)).1 .Image rfl).1 (by decide)⟩

/-! ## C10: the factories return registered types only -/

theorem LogWriter.ctor_result_cpp (c : WriterCtor) (self : LogWriter) (tag : String)
    (n step_cycle : Int) (w : Writer)
    (h : (LogWriter.call c self tag n step_cycle).1 = .ok w) : w.cpp = c.returns := by
  cases c with
  | new_histogram T =>
    by_cases hn : n ≤ 0
    · simp [LogWriter.call, LogWriter.new_histogram, Histogram.construct, hn, Except.map] at h
    · simp [LogWriter.call, LogWriter.new_histogram, Histogram.construct, hn, Except.map] at h
      subst h
      rfl
  | _ =>
    simp [LogWriter.call, LogWriter.new_scalar, LogWriter.new_image, LogWriter.new_text,
      LogWriter.new_audio, LogWriter.new_embedding] at h
    subst h
    rfl

theorem LogReader.getter_result_cpp (g : ReaderGetter) (self : LogReader) (tag : String) (r : Reader)
    (h : LogReader.call g self tag = .ok r) : r.cpp = g.returns := by
  cases ht : self.tablet tag with
  | error e =>
    cases g <;>
      simp [LogReader.call, LogReader.get_scalar, LogReader.get_histogram, LogReader.get_image,
        LogReader.get_text, LogReader.get_audio, LogReader.get_embedding, ht, Except.map, bind,
        Except.bind] at h
  | ok t =>
    cases g <;>
      · simp [LogReader.call, LogReader.get_scalar, LogReader.get_histogram,
          LogReader.get_image, LogReader.get_text, LogReader.get_audio, LogReader.get_embedding,
          ht, Except.map, bind, Except.bind, pure, Except.pure] at h
        subst h
        rfl

/-- C10: every object a bound `LogWriter` constructor or `LogReader` getter returns is of
a C++ type for which the module registers a class (`int` and `int32_t` being one type),
so no factory returns an unregistered type. -/
theorem C10_factories_return_registered :
    (∀ c ∈ LogWriter.ctors, registered c.returns = true) ∧
    (∀ g ∈ LogReader.getters, registered g.returns = true) ∧
    (∀ c ∈ LogWriter.ctors, ∀ (self : LogWriter) (tag : String) (n step_cycle : Int)
      (w : Writer), (LogWriter.call c self tag n step_cycle).1 = .ok w →
      registered w.cpp = true) ∧
    (∀ g ∈ LogReader.getters, ∀ (self : LogReader) (tag : String) (r : Reader),
      LogReader.call g self tag = .ok r → registered r.cpp = true) := by
  have hw : ∀ c ∈ LogWriter.ctors, registered c.returns = true := by decide
  have hr : ∀ g ∈ LogReader.getters, registered g.returns = true := by decide
  refine ⟨hw, hr, ?_, ?_⟩
  · intro c hc self tag n step_cycle w h
    rw [LogWriter.ctor_result_cpp c self tag n step_cycle w h]
    exact hw c hc
  · intro g hg self tag r h
    rw [LogReader.getter_result_cpp g self tag r h]
    exact hr g hg

/-! ## C3: the slot returned by `is_sample_taken` -/

theorem ReservoirSampler.calls_length {α : Type} (s : ReservoirSampler α) (rnds : List Nat) :
    (s.calls rnds).length = rnds.length := by
  induction rnds generalizing s with
  | nil => rfl
  | cons rnd rest ih => simp [ReservoirSampler.calls, ih]

theorem ReservoirSampler.calls_get {α : Type} (s : ReservoirSampler α) (rnds : List Nat)
    (i : Nat) (hi : i < rnds.length) :
    (s.calls rnds)[i]? = some
      (if s.seen_count + i + 1 ≤ s.capacity then some (s.seen_count + i)
       else if rnds[i] % (s.seen_count + i + 1) < s.capacity
         then some (rnds[i] % (s.seen_count + i + 1)) else none) := by
  induction rnds generalizing s i with
  | nil => simp at hi
  | cons rnd rest ih =>
    cases i with
    | zero =>
      simp only [ReservoirSampler.calls, ReservoirSampler.IndexOfSampleTaken]
      by_cases h1 : s.seen_count + 1 ≤ s.capacity
      · simp [h1]
      · by_cases h2 : rnd % (s.seen_count + 1) < s.capacity <;> simp [h1, h2]
    | succ j =>
      have hj : j < rest.length := by simpa using hi
      have hs : (s.IndexOfSampleTaken rnd).2 = { s with seen_count := s.seen_count + 1 } := by
        unfold ReservoirSampler.IndexOfSampleTaken
        by_cases h1 : s.seen_count + 1 ≤ s.capacity
        · simp [h1]
        · by_cases h2 : rnd % (s.seen_count + 1) < s.capacity <;> simp [h1, h2]
      simp only [ReservoirSampler.calls, List.getElem?_cons_succ, List.getElem_cons_succ]
      rw [ih _ j hj, hs]
      simp only [Nat.add_assoc, Nat.add_comm 1 j]

/-- C3: inside one sampling period of capacity `k`, the call number `i + 1` of
`index_of_sample_taken` (bound as `is_sample_taken` on `ImageWriter` and `AudioWriter`)
returns slot `i` when `i + 1 ≤ k`, and otherwise either nothing or the drawn slot `r`
with `r < k`; it never returns an index `≥ k`. -/
theorem C3_index_below_capacity {α : Type} (s s0 : ReservoirSampler α) (k : Nat)
    (hs : s.StartSampling k = .ok s0) (rnds : List Nat) (i : Nat) (hi : i < rnds.length) :
    ∃ out, (s0.calls rnds)[i]? = some out ∧
      (i + 1 ≤ k → out = some i) ∧
      (k < i + 1 → out = none ∨ (out = some (rnds[i] % (i + 1)) ∧ rnds[i] % (i + 1) < k)) ∧
      (∀ j, out = some j → j < k) ∧
      ("is_sample_taken", "IndexOfSampleTaken") ∈ ImageWriter.defs ∧
      ("is_sample_taken", "IndexOfSampleTaken") ∈ AudioWriter.defs := by
  have h0 : s0.capacity = k ∧ s0.seen_count = 0 := by
    unfold ReservoirSampler.StartSampling at hs
    by_cases ha : s.active
    · simp [ha] at hs
    · simp [ha] at hs
      subst hs
      exact ⟨rfl, rfl⟩
  refine ⟨_, ReservoirSampler.calls_get s0 rnds i hi, ?_, ?_, ?_, by decide, by decide⟩
  · intro h
    simp [h0.1, h0.2, h]
  · intro h
    have h1 : ¬ (i + 1 ≤ k) := by omega
    by_cases h2 : rnds[i] % (i + 1) < k
    · right
      simp [h0.1, h0.2, h1, h2]
    · left
      simp [h0.1, h0.2, h1, h2]
  · intro j hj
    rw [h0.1, h0.2] at hj
    by_cases h1 : i + 1 ≤ k
    · simp [h1] at hj
      omega
    · by_cases h2 : rnds[i] % (i + 1) < k
      · simp [h1, h2] at hj
        omega
      · simp [h1, h2] at hj

/-- C3 at a concrete period: capacity 3, the fourth and fifth calls with raw draws 0 and
4 return slot 0 and nothing. -/
theorem C3_index_below_capacity_witness :
    ReservoirSampler.StartSampling (⟨0, 0, [], false⟩ : ReservoirSampler Nat) 3
      = .ok ⟨3, 0, [none, none, none], true⟩ ∧
    ReservoirSampler.calls (⟨3, 0, [none, none, none], true⟩ : ReservoirSampler Nat)
      [5, 5, 5, 0, 4] = [some 0, some 1, some 2, some 0, none] ∧
    ∃ out, (ReservoirSampler.calls (⟨3, 0, [none, none, none], true⟩ : ReservoirSampler Nat)
        [5, 5, 5, 0, 4])[3]? = some out ∧ ∀ j, out = some j → j < 3 := by
  refine ⟨by decide, by decide, ?_⟩
  obtain ⟨out, h1, _, _, h4, _⟩ :=
    C3_index_below_capacity (⟨0, 0, [], false⟩ : ReservoirSampler Nat)
      ⟨3, 0, [none, none, none], true⟩ 3 (by decide) [5, 5, 5, 0, 4] 3 (by decide)
  exact ⟨out, h1, h4⟩

/-! ## C4: the record a histogram writer produces -/

theorem foldl_min_le (vs : List ℚ) (v : ℚ) : vs.foldl min v ≤ v := by
  induction vs generalizing v with
  | nil => exact le_refl v
  | cons a rest ih => exact le_trans (ih (min v a)) (min_le_left v a)

theorem le_foldl_max (vs : List ℚ) (v : ℚ) : v ≤ vs.foldl max v := by
  induction vs generalizing v with
  | nil => exact le_refl v
  | cons a rest ih => exact le_trans (le_max_left v a) (ih (max v a))

theorem truncate_mono {a b : ℚ} (h : a ≤ b) : truncate a ≤ truncate b := by
  unfold truncate
  by_cases ha : 0 ≤ a
  · have hb : 0 ≤ b := le_trans ha h
    simp only [ha, hb, if_true]
    exact Int.floor_mono h
  · by_cases hb : 0 ≤ b
    · simp only [ha, hb, if_true, if_false]
      have h1 : ⌈a⌉ ≤ 0 := Int.ceil_le.mpr (by simpa using le_of_lt (not_le.mp ha))
      have h2 : 0 ≤ ⌊b⌋ := Int.floor_nonneg.mpr hb
      exact le_trans h1 h2
    · simp only [ha, hb, if_false]
      exact Int.ceil_mono h

theorem CType.report_mono (T : CType) {a b : ℚ} (h : a ≤ b) : T.report a ≤ T.report b := by
  cases T <;> simp only [CType.report] <;> first
    | exact h
    | exact_mod_cast truncate_mono h

theorem HistogramBinner.index_range (min_v w : ℚ) (num_buckets : Int) (x : ℚ)
    (h : 0 < num_buckets) :
    0 ≤ HistogramBinner.index min_v w num_buckets x ∧
      HistogramBinner.index min_v w num_buckets x < num_buckets := by
  unfold HistogramBinner.index
  constructor
  · exact le_max_left _ _
  · have : max 0 (min ⌊(x - min_v) / w⌋ (num_buckets - 1)) ≤ num_buckets - 1 :=
      max_le (by omega) (min_le_right _ _)
    omega

theorem indicator_sum (k : Int) (n : Nat) :
    ((List.range n).map (fun (i : Nat) => if k = (i : Int) then (1 : Int) else 0)).sum
      = if 0 ≤ k ∧ k < n then 1 else 0 := by
  induction n with
  | zero =>
    simp only [List.range_zero, List.map_nil, List.sum_nil, Nat.cast_zero]
    split_ifs with h
    · omega
    · rfl
  | succ m ih =>
    rw [List.range_succ, List.map_append, List.sum_append, ih]
    simp only [List.map_cons, List.map_nil, List.sum_cons, List.sum_nil, add_zero,
      Nat.cast_add, Nat.cast_one]
    split_ifs <;> omega

theorem sum_countP (f : ℚ → Int) (n : Nat) (l : List ℚ)
    (hf : ∀ x ∈ l, 0 ≤ f x ∧ f x < n) :
    ((List.range n).map
      (fun (i : Nat) => ((l.countP (fun x => decide (f x = (i : Int))) : Nat) : Int))).sum
      = (l.length : Int) := by
  induction l with
  | nil => simp
  | cons x rest ih =>
    have hx := hf x (List.mem_cons_self x rest)
    have ih1 := ih (fun y hy => hf y (List.mem_cons_of_mem x hy))
    have e : (fun (i : Nat) =>
        (((x :: rest).countP (fun y => decide (f y = (i : Int))) : Nat) : Int))
        = fun (i : Nat) => ((rest.countP (fun y => decide (f y = (i : Int))) : Nat) : Int)
            + (if f x = (i : Int) then (1 : Int) else 0) := by
      funext i
      rw [List.countP_cons]
      by_cases h : f x = (i : Int) <;> simp [h]
    rw [e, List.sum_map_add, ih1, indicator_sum, if_pos hx]
    simp


theorem HistogramBinner.bin_frequency_sum (T : CType) (values : List ℚ) (num_buckets : Int)
    (h : 0 < num_buckets) :
    ((HistogramBinner.bin T values num_buckets).map (fun b => b.frequency)).sum
      = (values.length : Int) := by
  cases values with
  | nil => simp [HistogramBinner.bin]
  | cons v vs =>
    simp only [HistogramBinner.bin]
    split_ifs with hd
    · simp
    · rw [List.map_map]
      have hn : ((num_buckets.toNat : Nat) : Int) = num_buckets := Int.toNat_of_nonneg h.le
      have := sum_countP
        (HistogramBinner.index (vs.foldl min v)
          ((vs.foldl max v - vs.foldl min v) / (num_buckets : ℚ)) num_buckets)
        num_buckets.toNat (v :: vs)
        (fun x _ => by
          rw [hn]
          exact HistogramBinner.index_range _ _ _ x h)
      simpa [Function.comp_def] using this

theorem HistogramBinner.bin_chain (T : CType) (values : List ℚ) (num_buckets : Int)
    (h : 0 < num_buckets) :
    List.Chain' (fun a b : Instance => a.left ≤ b.left ∧ a.right ≤ b.right ∧ b.left = a.right)
      (HistogramBinner.bin T values num_buckets) := by
  cases values with
  | nil => simp [HistogramBinner.bin]
  | cons v vs =>
    simp only [HistogramBinner.bin]
    split_ifs with hd
    · simp
    · have hle : vs.foldl min v ≤ vs.foldl max v :=
        le_trans (foldl_min_le vs v) (le_foldl_max vs v)
      have hq : (0 : ℚ) < (num_buckets : ℚ) := by exact_mod_cast h
      have hw : 0 ≤ (vs.foldl max v - vs.foldl min v) / (num_buckets : ℚ) :=
        div_nonneg (sub_nonneg.mpr hle) hq.le
      rw [List.chain'_map]
      cases hn : num_buckets.toNat with
      | zero => simp
      | succ m =>
        rw [List.chain'_range_succ]
        intro i _
        refine ⟨CType.report_mono T ?_, CType.report_mono T ?_, ?_⟩
        · push_cast
          nlinarith
        · push_cast
          nlinarith
        · push_cast
          rfl


/-- C4: for every sequence of values and every writer with `num_buckets > 0`, the record
produced by `add_record` has buckets whose frequencies sum to the number of values,
whose left and right edges are non-decreasing across buckets, and each bucket's left
edge equals the previous bucket's right edge. -/
theorem C4_histogram_record_buckets (T : CType) (self : Histogram T)
    (h : 0 < self.num_buckets) (step timestamp : Int) (data : List ℚ) :
    (((self.AddRecord step timestamp data).instances.map (fun b => b.frequency)).sum
      = (data.length : Int)) ∧
    List.Chain' (fun a b : Instance => a.left ≤ b.left ∧ a.right ≤ b.right ∧ b.left = a.right)
      (self.AddRecord step timestamp data).instances ∧
    ("add_record", "AddRecord") ∈ (ADD_HISTOGRAM_WRITER T).defs :=
  ⟨HistogramBinner.bin_frequency_sum T data self.num_buckets h,
    HistogramBinner.bin_chain T data self.num_buckets h,
    by simp [ADD_HISTOGRAM_WRITER]⟩

/-- C4 at a concrete writer: an `int` histogram of four buckets over five values. -/
theorem C4_histogram_record_buckets_witness :
    (0 : Int) < (Histogram.mk ⟨"train", "h"⟩ 4 : Histogram .int).num_buckets ∧
    ((((Histogram.mk ⟨"train", "h"⟩ 4 : Histogram .int).AddRecord 0 0
      [1, 2, 3, 4, 10]).instances.map (fun b => b.frequency)).sum = ((5 : Nat) : Int)) :=
  ⟨by decide,
    (C4_histogram_record_buckets .int (Histogram.mk ⟨"train", "h"⟩ 4) (by decide) 0 0
      [1, 2, 3, 4, 10]).1⟩

end VisualDL
